import Mathlib

/-!
Shallow embedding of src/ipsa_sched.c (FreeRTOS demo task set).

The file models, directly from the C source:
  - the period and priority constant table (lines 97-109),
  - the Registrar ipsa_sched (lines 128-154): queue creation, the five
    xTaskCreate calls whose results are ignored, vTaskStartScheduler, and
    the trailing infinite idle loop,
  - vPeriodicTask3 (lines 187-204): the 64-bit signed long multiplication,
    modelled with explicit two-complement wrapping at 64 bits,
  - vPeriodicTask4 (lines 206-251): the iterative binary search over the
    fixed ascending 50-element array, including the cross-iteration
    persistence of the locals low, high and found,
  - the observable action shape (print / delay / queue operation) of one
    loop iteration of every task body.

Machine integers are modelled as Int with explicit reduction modulo 2^64
where C overflow matters.  The C expression (low + high) / 2 runs on
operands that are provably nonnegative in every reachable state of the
search loop, where C truncating division and Lean Int division agree.
-/

/-! ## Constant table (src/ipsa_sched.c lines 97-109) -/

/-- Modelled from the spec: portTICK_PERIOD_MS is a FreeRTOS port constant
that is not part of src/.  The spec states the resulting periods in ticks
as 166, 170, 186, 166 and 50, equal to the millisecond arguments, so the
port tick period is 1 ms. -/
def portTICK_PERIOD_MS : Nat := 1

def mainQUEUE_LENGTH : Nat := 2

def TASK1_PERIOD_MS : Nat := 166 / portTICK_PERIOD_MS

def TASK2_PERIOD_MS : Nat := 170 / portTICK_PERIOD_MS

def TASK3_PERIOD_MS : Nat := 186 / portTICK_PERIOD_MS

def TASK4_PERIOD_MS : Nat := 166 / portTICK_PERIOD_MS

def APERIODIC_TASK_DELAY_MS : Nat := 50 / portTICK_PERIOD_MS

/-- Modelled from the spec: tskIDLE_PRIORITY is the FreeRTOS idle task
priority, not part of src/; it is the base value 0 from which the five
task priorities are offset. -/
def tskIDLE_PRIORITY : Nat := 0

def TASK1_PRIORITY : Nat := tskIDLE_PRIORITY + 1

def TASK2_PRIORITY : Nat := tskIDLE_PRIORITY + 2

def TASK3_PRIORITY : Nat := tskIDLE_PRIORITY + 3

def TASK4_PRIORITY : Nat := tskIDLE_PRIORITY + 4

def APERIODIC_TASK_PRIORITY : Nat := tskIDLE_PRIORITY + 5

/-- Size in bytes of one queue message, sizeof(uint32_t) in the source
(line 131). -/
def queueItemSizeBytes : Nat := 4

/-! ## Task identities and observable actions -/

/-- Identifiers for the five tasks created by ipsa_sched. -/
inductive TaskId where
  | task1
  | task2
  | task3
  | task4
  | aperiodic
deriving DecidableEq, Repr

/-- Name string passed to xTaskCreate for each task (lines 136-140). -/
def taskName : TaskId → String
  | .task1 => "TX1"
  | .task2 => "TX2"
  | .task3 => "TX3"
  | .task4 => "TX4"
  | .aperiodic => "Aperiodic"

/-- Priority passed to xTaskCreate for each task (lines 136-140). -/
def taskPriority : TaskId → Nat
  | .task1 => TASK1_PRIORITY
  | .task2 => TASK2_PRIORITY
  | .task3 => TASK3_PRIORITY
  | .task4 => TASK4_PRIORITY
  | .aperiodic => APERIODIC_TASK_PRIORITY

/-- Duration of the single vTaskDelay call in each task body: the period
for the periodic tasks, the fixed inter-release delay for the aperiodic
task. -/
def periodOf : TaskId → Nat
  | .task1 => TASK1_PERIOD_MS
  | .task2 => TASK2_PERIOD_MS
  | .task3 => TASK3_PERIOD_MS
  | .task4 => TASK4_PERIOD_MS
  | .aperiodic => APERIODIC_TASK_DELAY_MS

/-- Whether the task is one of the four periodic tasks. -/
def TaskId.isPeriodic : TaskId → Bool
  | .aperiodic => false
  | _ => true

/-- Observable actions a task body can perform in one loop iteration:
console output, a vTaskDelay suspension, or a queue operation. -/
inductive TaskAction where
  | printMsg (s : String)
  | delay (ticks : Nat)
  | queueSend
  | queueReceive
deriving DecidableEq, Repr

/-- Whether the action is a vTaskDelay suspension. -/
def TaskAction.isDelay : TaskAction → Bool
  | .delay _ => true
  | _ => false

/-- Whether the action touches the rendezvous queue. -/
def TaskAction.isQueueOp : TaskAction → Bool
  | .queueSend => true
  | .queueReceive => true
  | _ => false

/-- Observable action sequence of one iteration of each task body loop,
read off the source (lines 158-264).  Print payloads are the format
strings of the printf calls; no body performs any queue operation. -/
def iterationActions : TaskId → List TaskAction
  | .task1 => [.printMsg "Working 1", .delay TASK1_PERIOD_MS]
  | .task2 => [.printMsg "Fahrenheit: %f, Celsius: %f", .delay TASK2_PERIOD_MS]
  | .task3 => [.printMsg "Result: %ld", .delay TASK3_PERIOD_MS]
  | .task4 => [.printMsg "Element found / Element not found", .delay TASK4_PERIOD_MS]
  | .aperiodic => [.delay APERIODIC_TASK_DELAY_MS, .printMsg "Aperiodic task 1 finished"]

/-! ## The Registrar: ipsa_sched (lines 128-154)

The code creates the queue; only if that succeeds does it issue the five
xTaskCreate calls, whose return values are ignored, and then call
vTaskStartScheduler.  On success the scheduler never returns; if it
returns, or if queue creation failed, control falls into the infinite
idle loop. -/

/-- Resource environment the Registrar runs against: whether queue
creation succeeds, which xTaskCreate calls succeed, and whether
vTaskStartScheduler returns (it returns only on resource exhaustion). -/
structure Env where
  queueOk : Bool
  taskOk : TaskId → Bool
  schedulerReturns : Bool

/-- Terminal control state of the ipsa_sched call. -/
inductive FinalState where
  | runningScheduler
  | idleLoop
deriving DecidableEq, Repr

/-- Observable outcome of running ipsa_sched. -/
structure StartupResult where
  queueCreated : Bool
  registered : List TaskId
  schedulerStarted : Bool
  final : FinalState
deriving DecidableEq, Repr

/-- Order of the five xTaskCreate calls in the source (lines 136-140). -/
def creationOrder : List TaskId :=
  [.task1, .task2, .task3, .task4, .aperiodic]

/-- Embedding of ipsa_sched (lines 128-154).  The five xTaskCreate calls
are attempted unconditionally once the queue exists and their results are
ignored, so exactly the tasks whose creation succeeds end up registered. -/
def ipsa_sched (env : Env) : StartupResult :=
  if env.queueOk then
    { queueCreated := true
      registered := creationOrder.filter (fun t => env.taskOk t)
      schedulerStarted := true
      final := if env.schedulerReturns then .idleLoop else .runningScheduler }
  else
    { queueCreated := false
      registered := []
      schedulerStarted := false
      final := .idleLoop }

/-- Environment in which every allocation succeeds and the scheduler runs
forever. -/
def envAllOk : Env := ⟨true, fun _ => true, false⟩

/-- Environment in which queue creation fails. -/
def envQueueFail : Env := ⟨false, fun _ => true, false⟩

/-- Environment in which the queue is created but the first xTaskCreate
call fails for lack of memory. -/
def envTask1Fail : Env :=
  ⟨true, fun t => if t = TaskId.task1 then false else true, false⟩

/-! ## vPeriodicTask3 (lines 187-204): the 64-bit multiplication -/

/-- First multiplicand, the local num1 of vPeriodicTask3 (line 189). -/
def num1 : Int := 9876543210

/-- Second multiplicand, the local num2 of vPeriodicTask3 (line 190). -/
def num2 : Int := 1234567890

/-- Reduction of an integer into the 64-bit signed two-complement range,
the value a 64-bit long actually holds after an overflowing operation. -/
def wrap64 (x : Int) : Int := (x + 2 ^ 63) % 2 ^ 64 - 2 ^ 63

/-- Value of the local variable result of vPeriodicTask3 at the start of
iteration n of its loop (iterations counted from 0): it is initialised to
0 (line 191) and from the first loop pass on holds the 64-bit wrapped
product num1 * num2 (line 196), which is also what iteration n - 1
printed. -/
def task3ResultAt : Nat → Int
  | 0 => 0
  | _ + 1 => wrap64 (num1 * num2)

/-! ## vPeriodicTask4 (lines 206-251): the binary search -/

/-- The fixed ascending 50-element array, the local list of
vPeriodicTask4 (line 208). -/
def list : List Int :=
  [1, 2, 3, 4, 5, 6, 7, 8, 9, 10, 11, 12, 13, 14, 15, 16, 17, 18, 19, 20,
   21, 22, 23, 24, 25, 26, 27, 28, 29, 30, 31, 32, 33, 34, 35, 36, 37, 38,
   39, 40, 41, 42, 43, 44, 45, 46, 47, 48, 49, 50]

/-- The fixed search target, the local element_to_find (line 209). -/
def element_to_find : Int := 25

/-- Result of one run of the while loop of vPeriodicTask4 (lines
218-235): the final values of low, high and found, and the trace of
(low, high) pairs at each probe of list[mid]. -/
structure SearchOut where
  low : Int
  high : Int
  found : Bool
  trace : List (Int × Int)
deriving DecidableEq, Repr

/-- Embedding of the while loop of vPeriodicTask4 (lines 218-235), fuel
indexed so that it is executable; none signals fuel exhaustion and is
ruled out below whenever fuel exceeds the initial range width.  Each pass:
if low ≤ high, probe mid = (low + high) / 2; on a hit set found and break,
otherwise move low or high past mid.  The incoming value of found is kept
when the guard fails, exactly as in the C code where found persists across
iterations of the enclosing infinite loop. -/
def binarySearchLoop (l : List Int) (t : Int) :
    Nat → Int → Int → Bool → Option SearchOut
  | 0, _, _, _ => none
  | fuel + 1, low, high, found =>
    if low ≤ high then
      let mid := (low + high) / 2
      if l.getD mid.toNat 0 = t then
        some ⟨low, high, true, [(low, high)]⟩
      else if l.getD mid.toNat 0 < t then
        (binarySearchLoop l t fuel (mid + 1) high found).map
          (fun r => ⟨r.low, r.high, r.found, (low, high) :: r.trace⟩)
      else
        (binarySearchLoop l t fuel low (mid - 1) found).map
          (fun r => ⟨r.low, r.high, r.found, (low, high) :: r.trace⟩)
    else
      some ⟨low, high, found, []⟩

/-- Search logic of vPeriodicTask4 generalised to an arbitrary input
sequence and target, as the spec describes: low starts at 0, high at
length - 1, found at 0.  The fuel length + 1 strictly exceeds the initial
range width, so the loop always completes. -/
def binarySearch (l : List Int) (t : Int) : Option SearchOut :=
  binarySearchLoop l t (l.length + 1) 0 ((l.length : Int) - 1) false

/-- Cross-iteration state of vPeriodicTask4: the locals low, high and
found, declared outside the infinite loop (lines 210-214) and therefore
carried from one iteration to the next. -/
structure Task4State where
  low : Int
  high : Int
  found : Bool
deriving DecidableEq, Repr

/-- Initial state of vPeriodicTask4: low = 0, high = 49, found = 0
(lines 211-214). -/
def task4Init : Task4State := ⟨0, 49, false⟩

/-- One run of the while loop from a given carried state; fuel 51 exceeds
the width 50 of the widest possible range. -/
def task4Run (s : Task4State) : Option SearchOut :=
  binarySearchLoop list element_to_find 51 s.low s.high s.found

/-- State transformation of one full iteration of the infinite loop of
vPeriodicTask4: run the while loop, carry its final low, high, found into
the next iteration.  The none branch is unreachable (fuel suffices) and
returns the state unchanged. -/
def task4Next (s : Task4State) : Task4State :=
  match task4Run s with
  | some r => ⟨r.low, r.high, r.found⟩
  | none => s

/-- State of the locals of vPeriodicTask4 at the start of iteration n of
its infinite loop, counted from 0. -/
def task4StateAt : Nat → Task4State
  | 0 => task4Init
  | n + 1 => task4Next (task4StateAt n)

/-- Whether iteration n of vPeriodicTask4 prints "Element found": the
value of found after the while loop of iteration n, which is the found
component of the state carried into iteration n + 1. -/
def task4FoundAt (n : Nat) : Bool := (task4StateAt (n + 1)).found

/-- Trace of (low, high) probe states of the while loop during iteration
n of vPeriodicTask4. -/
def task4ProbesAt (n : Nat) : List (Int × Int) :=
  match task4Run (task4StateAt n) with
  | some r => r.trace
  | none => []

/-! ## Release instants under the relative-delay policy -/

/-- Modelled from the spec: vTaskDelay is a FreeRTOS primitive not in
src/; it suspends the caller for the given number of ticks measured from
the moment of the call (relative delay).  Under this policy the release
instant of iteration n + 1 is the release instant of iteration n plus
that iteration execution time plus the period. -/
def releaseAt (period : Nat) (exec : Nat → Nat) : Nat → Nat
  | 0 => 0
  | n + 1 => releaseAt period exec n + exec n + period

/-! ## Helper lemmas about list indexing and sortedness -/

/-- Lemma relating getD at an in-bounds index to the indexed element. -/
lemma getD_lt (l : List Int) (n : Nat) (h : n < l.length) : l.getD n 0 = l[n] := by
  rw [List.getD_eq_getElem?_getD, List.getElem?_eq_getElem h]
  rfl

/-- Monotonicity of a nondecreasing-sorted list under getD at in-bounds
indices. -/
lemma sorted_getD_le (l : List Int) (hs : List.Sorted (fun a b => a ≤ b) l)
    (i j : Nat) (hij : i ≤ j) (hj : j < l.length) :
    l.getD i 0 ≤ l.getD j 0 := by
  have hi : i < l.length := Nat.lt_of_le_of_lt hij hj
  rw [getD_lt l i hi, getD_lt l j hj]
  rcases Nat.eq_or_lt_of_le hij with rfl | hlt
  · exact le_refl _
  · exact List.pairwise_iff_getElem.mp hs i j hi hj hlt

/-! ## Termination and correctness of the search loop -/

/-- Fuel sufficiency: with fuel exceeding the width of the initial range
the search loop always completes. -/
lemma binarySearchLoop_isSome (l : List Int) (t : Int) :
    ∀ (fuel : Nat) (low high : Int) (found : Bool),
      (high + 1 - low).toNat < fuel →
      (binarySearchLoop l t fuel low high found).isSome = true := by
  intro fuel
  induction fuel with
  | zero => intro low high found h; omega
  | succ n ih =>
    intro low high found h
    simp only [binarySearchLoop]
    by_cases hle : low ≤ high
    · rw [if_pos hle]
      by_cases h1 : l.getD ((low + high) / 2).toNat 0 = t
      · rw [if_pos h1]; rfl
      · rw [if_neg h1]
        by_cases h2 : l.getD ((low + high) / 2).toNat 0 < t
        · rw [if_pos h2]
          have hrec := ih ((low + high) / 2 + 1) high found (by omega)
          cases hb : binarySearchLoop l t n ((low + high) / 2 + 1) high found with
          | none => rw [hb] at hrec; simp at hrec
          | some r1 => rfl
        · rw [if_neg h2]
          have hrec := ih low ((low + high) / 2 - 1) found (by omega)
          cases hb : binarySearchLoop l t n low ((low + high) / 2 - 1) found with
          | none => rw [hb] at hrec; simp at hrec
          | some r1 => rfl
    · rw [if_neg hle]; rfl

/-- Soundness: a run started with found = 0 that ends with found = 1 hit
an in-bounds element equal to the target, so the target is in the list. -/
lemma binarySearchLoop_found_mem (l : List Int) (t : Int) :
    ∀ (fuel : Nat) (low high : Int) (r : SearchOut),
      0 ≤ low → high < (l.length : Int) →
      binarySearchLoop l t fuel low high false = some r →
      r.found = true → t ∈ l := by
  intro fuel
  induction fuel with
  | zero => intro low high r _ _ h _; simp [binarySearchLoop] at h
  | succ n ih =>
    intro low high r hlow hhigh h hf
    simp only [binarySearchLoop] at h
    by_cases hle : low ≤ high
    · rw [if_pos hle] at h
      by_cases h1 : l.getD ((low + high) / 2).toNat 0 = t
      · have hidx : ((low + high) / 2).toNat < l.length := by omega
        have hval : l[((low + high) / 2).toNat] = t := by
          rw [← getD_lt l _ hidx]; exact h1
        exact hval ▸ List.getElem_mem hidx
      · rw [if_neg h1] at h
        by_cases h2 : l.getD ((low + high) / 2).toNat 0 < t
        · rw [if_pos h2] at h
          obtain ⟨r1, hr1, hmap⟩ := Option.map_eq_some'.mp h
          subst hmap
          exact ih _ _ r1 (by omega) hhigh hr1 (by simpa using hf)
        · rw [if_neg h2] at h
          obtain ⟨r1, hr1, hmap⟩ := Option.map_eq_some'.mp h
          subst hmap
          exact ih _ _ r1 hlow (by omega) hr1 (by simpa using hf)
    · rw [if_neg hle] at h
      cases h
      simp at hf

/-- Completeness: if the target occurs at some index inside the current
window [low, high] of a sorted list, the loop ends with found = 1. -/
lemma binarySearchLoop_mem_found (l : List Int) (t : Int)
    (hs : List.Sorted (fun a b => a ≤ b) l) :
    ∀ (fuel : Nat) (low high : Int) (found : Bool) (r : SearchOut),
      0 ≤ low → high < (l.length : Int) →
      binarySearchLoop l t fuel low high found = some r →
      (∃ j : Nat, j < l.length ∧ l.getD j 0 = t ∧ low ≤ (j : Int) ∧ (j : Int) ≤ high) →
      r.found = true := by
  intro fuel
  induction fuel with
  | zero => intro low high found r _ _ h _; simp [binarySearchLoop] at h
  | succ n ih =>
    intro low high found r hlow hhigh h hw
    obtain ⟨j, hj, hjv, hj1, hj2⟩ := hw
    simp only [binarySearchLoop] at h
    by_cases hle : low ≤ high
    · rw [if_pos hle] at h
      by_cases h1 : l.getD ((low + high) / 2).toNat 0 = t
      · rw [if_pos h1] at h
        cases h
        rfl
      · rw [if_neg h1] at h
        by_cases h2 : l.getD ((low + high) / 2).toNat 0 < t
        · rw [if_pos h2] at h
          obtain ⟨r1, hr1, hmap⟩ := Option.map_eq_some'.mp h
          subst hmap
          have hjmid : (low + high) / 2 + 1 ≤ (j : Int) := by
            by_contra hcon
            push_neg at hcon
            have hj_le : j ≤ ((low + high) / 2).toNat := by omega
            have hidx : ((low + high) / 2).toNat < l.length := by omega
            have hmono := sorted_getD_le l hs j ((low + high) / 2).toNat hj_le hidx
            rw [hjv] at hmono
            omega
          have hrec := ih ((low + high) / 2 + 1) high found r1 (by omega) hhigh hr1
            ⟨j, hj, hjv, (by omega), hj2⟩
          exact hrec
        · rw [if_neg h2] at h
          obtain ⟨r1, hr1, hmap⟩ := Option.map_eq_some'.mp h
          subst hmap
          have hjmid : (j : Int) ≤ (low + high) / 2 - 1 := by
            by_contra hcon
            push_neg at hcon
            have hm_le : ((low + high) / 2).toNat ≤ j := by omega
            have hmono := sorted_getD_le l hs ((low + high) / 2).toNat j hm_le hj
            rw [hjv] at hmono
            omega
          have hrec := ih low ((low + high) / 2 - 1) found r1 hlow (by omega) hr1
            ⟨j, hj, hjv, hj1, hjmid⟩
          exact hrec
    · exfalso; omega

/-- Exit shape: a run started with found = 0 that ends with found = 0
exited through the loop guard, so its final bounds satisfy high < low. -/
lemma binarySearchLoop_notfound (l : List Int) (t : Int) :
    ∀ (fuel : Nat) (low high : Int) (r : SearchOut),
      binarySearchLoop l t fuel low high false = some r →
      r.found = false → r.high < r.low := by
  intro fuel
  induction fuel with
  | zero => intro low high r h _; simp [binarySearchLoop] at h
  | succ n ih =>
    intro low high r h hf
    simp only [binarySearchLoop] at h
    by_cases hle : low ≤ high
    · rw [if_pos hle] at h
      by_cases h1 : l.getD ((low + high) / 2).toNat 0 = t
      · rw [if_pos h1] at h
        cases h
        simp at hf
      · rw [if_neg h1] at h
        by_cases h2 : l.getD ((low + high) / 2).toNat 0 < t
        · rw [if_pos h2] at h
          obtain ⟨r1, hr1, hmap⟩ := Option.map_eq_some'.mp h
          subst hmap
          simpa using ih _ _ r1 hr1 (by simpa using hf)
        · rw [if_neg h2] at h
          obtain ⟨r1, hr1, hmap⟩ := Option.map_eq_some'.mp h
          subst hmap
          simpa using ih _ _ r1 hr1 (by simpa using hf)
    · rw [if_neg hle] at h
      cases h
      simpa using (by omega : high < low)

/-! ## Helper lemmas about the concrete vPeriodicTask4 run -/

/-- Fixed point: from the second iteration on, the carried state of
vPeriodicTask4 is low = 0, high = 49, found = 1; the very first probe
mid = (0 + 49) / 2 = 24 hits list[24] = 25 and never moves the bounds. -/
lemma task4State_stable : ∀ m : Nat, task4StateAt (m + 1) = ⟨0, 49, true⟩ := by
  intro m
  induction m with
  | zero => decide
  | succ k ih =>
    rw [task4StateAt, ih]
    decide

/-- Probe trace of every iteration of vPeriodicTask4: the single probe
state (0, 49), whose midpoint 24 hits the target immediately. -/
lemma task4Probes_eq (n : Nat) : task4ProbesAt n = [(0, 49)] := by
  cases n with
  | zero => decide
  | succ m =>
    simp only [task4ProbesAt, task4State_stable m]
    decide

/-- Ceiling base-2 logarithm of 50 is 6. -/
lemma clog2_50 : Nat.clog 2 50 = 6 := by
  have h1 : Nat.clog 2 50 ≤ 6 := by
    rw [← Nat.le_pow_iff_clog_le (by norm_num)]
    norm_num
  have h2 : 5 < Nat.clog 2 50 := by
    rw [← Nat.pow_lt_iff_lt_clog (by norm_num)]
    norm_num
  omega

/-! ## Claim theorems -/

/-- C1, counterexample: the claim fails on the code.  The true product
num1 * num2 is 12193263111263526900, which exceeds the signed 64-bit
maximum 2 ^ 63 - 1, so the multiplication in vPeriodicTask3 silently
overflows its 64-bit long and what the task stores and prints from the
first iteration on is the wrapped value, not the product. -/
theorem c1_overflow_counterexample :
    num1 * num2 = 12193263111263526900 ∧
    2 ^ 63 - 1 < num1 * num2 ∧
    task3ResultAt 1 = -6253480962446024716 ∧
    task3ResultAt 1 ≠ num1 * num2 :=
  ⟨by decide, by decide, by decide, by decide⟩

/-- C1, amended: on every iteration the printed result of vPeriodicTask3
is the 64-bit wrap of 9876543210 * 1234567890, namely
-6253480962446024716; the exact product 12193263111263526900 exceeds
2 ^ 63 - 1 (while fitting below 2 ^ 64), so a signed 64-bit integer is
not wide enough and the multiplication does silently overflow. -/
theorem c1_amended_result_wraps (n : Nat) (h : 1 ≤ n) :
    task3ResultAt n = wrap64 (num1 * num2) ∧
    task3ResultAt n = -6253480962446024716 ∧
    num1 * num2 = 12193263111263526900 ∧
    2 ^ 63 - 1 < num1 * num2 ∧ num1 * num2 < 2 ^ 64 ∧
    task3ResultAt n ≠ num1 * num2 := by
  obtain ⟨m, rfl⟩ : ∃ m, n = m + 1 := ⟨n - 1, by omega⟩
  have he : task3ResultAt (m + 1) = wrap64 (num1 * num2) := rfl
  rw [he]
  exact ⟨rfl, by decide, by decide, by decide, by decide, by decide⟩

/-- C1, witness for the amended theorem at iteration 1. -/
theorem c1_amended_result_wraps_witness :
    1 ≤ 1 ∧
    (task3ResultAt 1 = wrap64 (num1 * num2) ∧
     task3ResultAt 1 = -6253480962446024716 ∧
     num1 * num2 = 12193263111263526900 ∧
     2 ^ 63 - 1 < num1 * num2 ∧ num1 * num2 < 2 ^ 64 ∧
     task3ResultAt 1 ≠ num1 * num2) :=
  ⟨le_refl 1, c1_amended_result_wraps 1 (le_refl 1)⟩

/-- C2, counterexample: the claim fails on the code for task-creation
failure.  In an environment where the queue is created but the first
xTaskCreate call fails, ipsa_sched still registers the other four tasks
and starts the scheduler, leaving a partial task set running, because
the xTaskCreate return values are ignored. -/
theorem c2_partial_taskset_counterexample :
    envTask1Fail.queueOk = true ∧
    envTask1Fail.taskOk TaskId.task1 = false ∧
    (ipsa_sched envTask1Fail).registered =
      [TaskId.task2, TaskId.task3, TaskId.task4, TaskId.aperiodic] ∧
    (ipsa_sched envTask1Fail).registered ≠ [] ∧
    (ipsa_sched envTask1Fail).schedulerStarted = true :=
  ⟨by decide, by decide, by decide, by decide, by decide⟩

/-- C2, amended: only queue creation is all-or-nothing.  If creation of
the rendezvous queue fails, ipsa_sched registers no tasks, does not
start the scheduler, and falls through to the infinite idle loop. -/
theorem c2_amended_queue_failure_allornothing (env : Env)
    (h : env.queueOk = false) :
    (ipsa_sched env).queueCreated = false ∧
    (ipsa_sched env).registered = [] ∧
    (ipsa_sched env).schedulerStarted = false ∧
    (ipsa_sched env).final = FinalState.idleLoop := by
  simp [ipsa_sched, h]

/-- C2, witness for the amended theorem, at the environment where queue
creation fails. -/
theorem c2_amended_queue_failure_allornothing_witness :
    envQueueFail.queueOk = false ∧
    ((ipsa_sched envQueueFail).queueCreated = false ∧
     (ipsa_sched envQueueFail).registered = [] ∧
     (ipsa_sched envQueueFail).schedulerStarted = false ∧
     (ipsa_sched envQueueFail).final = FinalState.idleLoop) :=
  ⟨rfl, c2_amended_queue_failure_allornothing envQueueFail rfl⟩

/-- C3: every iteration of vPeriodicTask4 prints the found marker; the
probe trace of every iteration is the single state (0, 49), so its
length is at most the ceiling of log2 of 50 plus 1 = 7 probes, and
consecutive probes (vacuously here) strictly narrow the window. -/
theorem c3_task4_always_found (n : Nat) :
    task4FoundAt n = true ∧
    task4ProbesAt n = [(0, 49)] ∧
    (task4ProbesAt n).length ≤ Nat.clog 2 50 + 1 ∧
    List.Chain' (fun a b : Int × Int => a.1 ≤ b.1 ∧ b.2 ≤ a.2 ∧ b.2 - b.1 < a.2 - a.1)
      (task4ProbesAt n) := by
  have hp := task4Probes_eq n
  have hf : task4FoundAt n = true := by
    rw [task4FoundAt, task4State_stable n]
  refine ⟨hf, hp, ?_, ?_⟩
  · rw [hp, clog2_50]
    decide
  · rw [hp]
    exact List.chain'_singleton _

/-- C4, counterexample: the claim fails on the code.  The local found of
vPeriodicTask4 is 0 at the start of the first iteration and 1 at the
start of the second, and the local result of vPeriodicTask3 is 0 at the
start of the first iteration and the wrapped product afterwards, so the
task-local state is not the same at the start of every iteration. -/
theorem c4_state_mutation_counterexample :
    task4StateAt 1 ≠ task4StateAt 0 ∧
    (task4StateAt 0).found = false ∧
    (task4StateAt 1).found = true ∧
    task3ResultAt 1 ≠ task3ResultAt 0 :=
  ⟨by decide, by decide, by decide, by decide⟩

/-- C4, amended: the task-local state is written once on the first
iteration and immutable from then on.  For every n ≥ 1 the state of
vPeriodicTask4 at the start of iteration n equals the state at the start
of iteration 1, the search bounds low and high never leave their initial
values 0 and 49, found is 1, and the result of vPeriodicTask3 is
likewise constant from iteration 1 on. -/
theorem c4_amended_state_stable_after_first (n : Nat) (h : 1 ≤ n) :
    task4StateAt n = task4StateAt 1 ∧
    (task4StateAt n).low = task4Init.low ∧
    (task4StateAt n).high = task4Init.high ∧
    (task4StateAt n).found = true ∧
    task3ResultAt n = task3ResultAt 1 := by
  obtain ⟨m, rfl⟩ : ∃ m, n = m + 1 := ⟨n - 1, by omega⟩
  rw [task4State_stable m]
  exact ⟨(task4State_stable 0).symm, rfl, rfl, rfl, rfl⟩

/-- C4, witness for the amended theorem at iteration 2. -/
theorem c4_amended_state_stable_after_first_witness :
    1 ≤ 2 ∧
    (task4StateAt 2 = task4StateAt 1 ∧
     (task4StateAt 2).low = task4Init.low ∧
     (task4StateAt 2).high = task4Init.high ∧
     (task4StateAt 2).found = true ∧
     task3ResultAt 2 = task3ResultAt 1) :=
  ⟨by decide, c4_amended_state_stable_after_first 2 (by decide)⟩

/-- C5: the five static priorities form a strict total order
Task1 < Task2 < Task3 < Task4 < Aperiodic and no two of them are equal. -/
theorem c5_priorities_strict_total_order :
    List.Pairwise (fun a b => a < b)
      [TASK1_PRIORITY, TASK2_PRIORITY, TASK3_PRIORITY, TASK4_PRIORITY,
       APERIODIC_TASK_PRIORITY] ∧
    List.Nodup
      [TASK1_PRIORITY, TASK2_PRIORITY, TASK3_PRIORITY, TASK4_PRIORITY,
       APERIODIC_TASK_PRIORITY] :=
  ⟨by decide, by decide⟩

/-- C6: the periods in ticks are Task1 = 166, Task2 = 170, Task3 = 186,
Task4 = 166, the aperiodic inter-release delay is 50 ticks, and every
one of these durations is strictly positive. -/
theorem c6_periods_values_positive :
    TASK1_PERIOD_MS = 166 ∧ TASK2_PERIOD_MS = 170 ∧ TASK3_PERIOD_MS = 186 ∧
    TASK4_PERIOD_MS = 166 ∧ APERIODIC_TASK_DELAY_MS = 50 ∧
    0 < TASK1_PERIOD_MS ∧ 0 < TASK2_PERIOD_MS ∧ 0 < TASK3_PERIOD_MS ∧
    0 < TASK4_PERIOD_MS ∧ 0 < APERIODIC_TASK_DELAY_MS := by
  decide

/-- C7: every periodic task body performs exactly one suspension per
iteration, it is the last action and follows the workload actions, its
duration is the task period (relative delay); under the relative-delay
semantics the next release instant is exactly the previous one plus that
iteration execution time plus the period, hence spaced at least period
plus prior execution time apart. -/
theorem c7_single_relative_delay_per_iteration
    (t : TaskId) (exec : Nat → Nat) (n : Nat) (hp : t.isPeriodic = true) :
    (iterationActions t).countP (fun a => a.isDelay) = 1 ∧
    (∃ w, iterationActions t = w ++ [TaskAction.delay (periodOf t)] ∧
      ∀ a ∈ w, a.isDelay = false) ∧
    releaseAt (periodOf t) exec (n + 1)
      = releaseAt (periodOf t) exec n + exec n + periodOf t ∧
    releaseAt (periodOf t) exec n + periodOf t + exec n
      ≤ releaseAt (periodOf t) exec (n + 1) := by
  have hrel : releaseAt (periodOf t) exec (n + 1)
      = releaseAt (periodOf t) exec n + exec n + periodOf t := rfl
  cases t with
  | task1 =>
    exact ⟨by decide, ⟨[.printMsg "Working 1"], rfl, by decide⟩, hrel, by omega⟩
  | task2 =>
    exact ⟨by decide, ⟨[.printMsg "Fahrenheit: %f, Celsius: %f"], rfl, by decide⟩,
      hrel, by omega⟩
  | task3 =>
    exact ⟨by decide, ⟨[.printMsg "Result: %ld"], rfl, by decide⟩, hrel, by omega⟩
  | task4 =>
    exact ⟨by decide, ⟨[.printMsg "Element found / Element not found"], rfl, by decide⟩,
      hrel, by omega⟩
  | aperiodic => simp [TaskId.isPeriodic] at hp

/-- C7, witness at Task1 with constant execution time 3 and iteration 0. -/
theorem c7_single_relative_delay_per_iteration_witness :
    TaskId.task1.isPeriodic = true ∧
    ((iterationActions TaskId.task1).countP (fun a => a.isDelay) = 1 ∧
     (∃ w, iterationActions TaskId.task1
        = w ++ [TaskAction.delay (periodOf TaskId.task1)] ∧
       ∀ a ∈ w, a.isDelay = false) ∧
     releaseAt (periodOf TaskId.task1) (fun _ => 3) (0 + 1)
       = releaseAt (periodOf TaskId.task1) (fun _ => 3) 0
         + (fun _ : Nat => 3) 0 + periodOf TaskId.task1 ∧
     releaseAt (periodOf TaskId.task1) (fun _ => 3) 0
       + periodOf TaskId.task1 + (fun _ : Nat => 3) 0
       ≤ releaseAt (periodOf TaskId.task1) (fun _ => 3) (0 + 1)) :=
  ⟨rfl, c7_single_relative_delay_per_iteration TaskId.task1 (fun _ => 3) 0 rfl⟩

/-- C8: the search logic of vPeriodicTask4 generalised to an arbitrary
sorted sequence and arbitrary target completes and reports found exactly
when the target occurs in the sequence, and whenever it reports not
found the loop terminated with low > high. -/
theorem c8_binarySearch_correct (l : List Int) (t : Int)
    (hs : List.Sorted (fun a b => a ≤ b) l) :
    ∃ r : SearchOut, binarySearch l t = some r ∧
      (r.found = true ↔ t ∈ l) ∧ (r.found = false → r.high < r.low) := by
  have hsome := binarySearchLoop_isSome l t (l.length + 1) 0 ((l.length : Int) - 1)
    false (by omega)
  obtain ⟨r, hr⟩ := Option.isSome_iff_exists.mp hsome
  refine ⟨r, hr, ⟨?_, ?_⟩, ?_⟩
  · intro hf
    exact binarySearchLoop_found_mem l t _ 0 _ r (by omega) (by omega) hr hf
  · intro hmem
    obtain ⟨j, hj, hval⟩ := List.mem_iff_getElem.mp hmem
    refine binarySearchLoop_mem_found l t hs _ 0 _ false r (by omega) (by omega) hr
      ⟨j, hj, ?_, by omega, by omega⟩
    rw [getD_lt l j hj]
    exact hval
  · exact binarySearchLoop_notfound l t _ 0 _ r hr

/-- C8, witness at the sorted list 1, 3, 5 with absent target 4. -/
theorem c8_binarySearch_correct_witness :
    List.Sorted (fun a b : Int => a ≤ b) [1, 3, 5] ∧
    (∃ r : SearchOut, binarySearch [1, 3, 5] 4 = some r ∧
      (r.found = true ↔ (4 : Int) ∈ [(1 : Int), 3, 5]) ∧
      (r.found = false → r.high < r.low)) :=
  ⟨by decide, c8_binarySearch_correct [1, 3, 5] 4 (by decide)⟩

/-- C9: the rendezvous queue is created with capacity exactly 2 and a
message size of one 32-bit word (sizeof uint32_t, 4 bytes); the five
tasks are registered in creation order with strictly increasing
priorities; and no task body ever performs a queue operation, so the
queue is written once at startup and never accessed again. -/
theorem c9_queue_params_order_unused :
    mainQUEUE_LENGTH = 2 ∧
    queueItemSizeBytes * 8 = 32 ∧
    (ipsa_sched envAllOk).queueCreated = true ∧
    (ipsa_sched envAllOk).registered = creationOrder ∧
    List.Pairwise (fun a b => a < b) (creationOrder.map taskPriority) ∧
    ∀ t : TaskId, (iterationActions t).countP (fun a => a.isQueueOp) = 0 := by
  refine ⟨rfl, rfl, rfl, by decide, by decide, ?_⟩
  intro t
  cases t <;> decide

/-- C10: at every probe of every iteration of vPeriodicTask4, the probe
state (low, high) satisfies 0 ≤ low ≤ mid ≤ high ≤ 49 for
mid = (low + high) / 2, the index mid is in bounds for the 50-element
array, and low + high is at most 98, far below the 32-bit int maximum,
so computing (low + high) / 2 cannot overflow the index type. -/
theorem c10_probe_bounds_in_range (n : Nat) (p : Int × Int)
    (hp : p ∈ task4ProbesAt n) :
    0 ≤ p.1 ∧ p.1 ≤ (p.1 + p.2) / 2 ∧ (p.1 + p.2) / 2 ≤ p.2 ∧ p.2 ≤ 49 ∧
    ((p.1 + p.2) / 2).toNat < list.length ∧
    p.1 + p.2 ≤ 98 ∧ (98 : Int) < 2 ^ 31 - 1 := by
  rw [task4Probes_eq n] at hp
  have hp2 : p = (0, 49) := List.mem_singleton.mp hp
  subst hp2
  decide

/-- C10, witness at iteration 0 and its single probe state (0, 49). -/
theorem c10_probe_bounds_in_range_witness :
    ((0 : Int), (49 : Int)) ∈ task4ProbesAt 0 ∧
    (0 ≤ (((0 : Int), (49 : Int)) : Int × Int).1 ∧
     (((0 : Int), (49 : Int)) : Int × Int).1
       ≤ ((((0 : Int), (49 : Int)) : Int × Int).1
          + (((0 : Int), (49 : Int)) : Int × Int).2) / 2 ∧
     ((((0 : Int), (49 : Int)) : Int × Int).1
        + (((0 : Int), (49 : Int)) : Int × Int).2) / 2
       ≤ (((0 : Int), (49 : Int)) : Int × Int).2 ∧
     (((0 : Int), (49 : Int)) : Int × Int).2 ≤ 49 ∧
     (((((0 : Int), (49 : Int)) : Int × Int).1
        + (((0 : Int), (49 : Int)) : Int × Int).2) / 2).toNat < list.length ∧
     (((0 : Int), (49 : Int)) : Int × Int).1
       + (((0 : Int), (49 : Int)) : Int × Int).2 ≤ 98 ∧
     (98 : Int) < 2 ^ 31 - 1) :=
  ⟨by decide, c10_probe_bounds_in_range 0 ((0 : Int), (49 : Int)) (by decide)⟩
